import Mathlib

/-!
Shallow embedding of the tsunami-risk application: `app.py` (namespace
`App`) and the monitoring page `pages/1_🔴_Monitoreo_Tiempo_Real.py`
(namespace `Monitor`).  Python floats are modelled as exact rationals
(`ℚ`); a Python value that is `None`, NaN, or an absent dictionary key is
modelled as `Option.none`.  The pretrained scaler/classifier pair is an
opaque external artifact, so scoring is modelled as an abstract function
`MonitorEvent → Option RiskResult`; everything downstream of it is
embedded concretely.
-/

namespace App

/-- Raw earthquake record assembled by the interactive form of `app.py`
(the `earthquake_data` dict, lines 242-256).  `mmi` and `sig` are read
with `.get(key, 0)` in `engineer_features` and `predict_tsunami`, so they
are optional; the remaining fields are accessed by direct indexing. -/
structure EarthquakeData where
  magnitude : ℚ
  depth : ℚ
  latitude : ℚ
  longitude : ℚ
  cdi : ℚ
  mmi : Option ℚ
  sig : Option ℚ
  nst : ℚ
  dmin : ℚ
  gap : ℚ
  year : ℤ
  month : ℤ
  place : String
deriving DecidableEq

/-- `calculate_ocean_proximity` of `app.py` (lines 35-43).  The Python
code combines comparison results with the bitwise operators `&` and `|`
(acting on booleans) and a final `or`; the bitwise operators are modelled
by `Bool.and` and `Bool.or` on decided comparisons, and `int(...)` by the
final conditional. -/
def calculate_ocean_proximity (lat lon : ℚ) : ℤ :=
  let pacific_ring :=
    (decide (lat > -60) && decide (lat < 60)) &&
    ((decide (lon > 120) && decide (lon < 180)) ||
     (decide (lon > -180) && decide (lon < -60)))
  let indian_ocean :=
    (decide (lat > -45) && decide (lat < 25)) &&
    (decide (lon > 40) && decide (lon < 120))
  let caribbean :=
    (decide (lat > 5) && decide (lat < 25)) &&
    (decide (lon > -90) && decide (lon < -55))
  if pacific_ring || indian_ocean || caribbean then 1 else 0

/-- The `mag_depth_ratio` formula shared by both pipelines (`app.py`
line 51; monitoring page line 137). -/
def mag_depth_ratio (magnitude depth : ℚ) : ℚ :=
  magnitude / (depth + 1)

/-- The four feature fields `engineer_features` adds to the record. -/
structure Features where
  ocean_proximity : ℤ
  mag_depth_ratio : ℚ
  intensity_score : ℚ
  shallow_strong : ℤ
deriving DecidableEq

/-- `engineer_features` of `app.py` (lines 46-60).  The decimal weights
0.5, 0.3, 0.2 and the thresholds 70 and 7.5 are the exact rationals
1/2, 3/10, 1/5, 70 and 15/2. -/
def engineer_features (data : EarthquakeData) : Features :=
  { ocean_proximity := calculate_ocean_proximity data.latitude data.longitude
    mag_depth_ratio := mag_depth_ratio data.magnitude data.depth
    intensity_score :=
      data.magnitude * (1/2) + (data.mmi.getD 0) * (3/10) +
        (data.sig.getD 0) / 100 * (1/5)
    shallow_strong :=
      if data.depth < 70 ∧ data.magnitude > 15/2 then 1 else 0 }

/-- The 3-tier risk level of `predict_tsunami` (`app.py` lines 80-88),
returning the (label, color) pair. -/
def risk_level3 (probability : ℚ) : String × String :=
  if probability ≥ 7/10 then ("🔴 Alto", "#dc3545")
  else if probability ≥ 3/10 then ("🟡 Moderado", "#ffc107")
  else ("🟢 Bajo", "#28a745")

/-- Risk-factor description appended when magnitude ≥ 7.5 (line 93). -/
def magnitudeFactor : String := "⚠️ Magnitud muy alta (≥7.5)"

/-- Risk-factor description appended when depth < 70 km (line 95). -/
def depthFactor : String := "⚠️ Terremoto superficial (<70km)"

/-- Risk-factor description appended when the derived `ocean_proximity`
equals 1 (line 97). -/
def oceanFactor : String := "⚠️ Cerca de zona oceánica de riesgo"

/-- Risk-factor description appended when mmi ≥ 6 (line 99). -/
def mmiFactor : String := "⚠️ Intensidad percibida alta"

/-- The risk-factor list of `predict_tsunami` (`app.py` lines 91-99),
in the order the code appends the descriptions. -/
def risk_factors (e : EarthquakeData) : List String :=
  (if e.magnitude ≥ 15/2 then [magnitudeFactor] else []) ++
  (if e.depth < 70 then [depthFactor] else []) ++
  (if (engineer_features e).ocean_proximity = 1 then [oceanFactor] else []) ++
  (if e.mmi.getD 0 ≥ 6 then [mmiFactor] else [])

end App

/-- The three risk basins in the words of the specification (§4.1):
Pacific Ring, Indian Ocean and Caribbean, each an open axis-aligned box.
Stated from the spec, to be compared against the code's classifier. -/
def SpecRiskZone (lat lon : ℚ) : Prop :=
  (-60 < lat ∧ lat < 60 ∧ ((120 < lon ∧ lon < 180) ∨ (-180 < lon ∧ lon < -60))) ∨
  (-45 < lat ∧ lat < 25 ∧ 40 < lon ∧ lon < 120) ∨
  (5 < lat ∧ lat < 25 ∧ -90 < lon ∧ lon < -55)

instance (lat lon : ℚ) : Decidable (SpecRiskZone lat lon) := by
  unfold SpecRiskZone
  infer_instance

namespace Monitor

/-- `calculate_ocean_proximity` of the monitoring page (lines 88-96);
this copy is written with Python's boolean `and` / `or` throughout. -/
def calculate_ocean_proximity (lat lon : ℚ) : ℤ :=
  if ((lat > -60 ∧ lat < 60) ∧
        ((lon > 120 ∧ lon < 180) ∨ (lon > -180 ∧ lon < -60))) ∨
     ((lat > -45 ∧ lat < 25) ∧ (lon > 40 ∧ lon < 120)) ∨
     ((lat > 5 ∧ lat < 25) ∧ (lon > -90 ∧ lon < -55)) then 1 else 0

/-- Raw event dictionary built by `fetch_recent_earthquakes` (monitoring
page lines 61-77) and consumed by `predict_tsunami_risk`.  Numeric fields
are optional because the upstream catalog may deliver `null` (and
`predict_tsunami_risk` re-checks every one of them for `None`/NaN). -/
structure MonitorEvent where
  id : String
  time : ℤ
  magnitude : Option ℚ
  place : Option String
  longitude : Option ℚ
  latitude : Option ℚ
  depth : Option ℚ
  sig : Option ℚ
  mmi : Option ℚ
  cdi : Option ℚ
  nst : Option ℚ
  dmin : Option ℚ
  gap : Option ℚ
  url : String
  tsunami : ℤ
deriving DecidableEq

/-- The numeric record `input_data` after default substitution
(`predict_tsunami_risk`, lines 106-124).  The temporal fields Year/Month
are copied from the event timestamp unchanged and carried separately. -/
structure InputData where
  magnitude : ℚ
  depth : ℚ
  latitude : ℚ
  longitude : ℚ
  sig : ℚ
  mmi : ℚ
  cdi : ℚ
  nst : ℚ
  dmin : ℚ
  gap : ℚ
deriving DecidableEq

/-- Lines 106-124 of `predict_tsunami_risk`: for every key, take the
event's value and fall back to the hard-coded default when the key is
absent, `None`, or NaN. -/
def prepare_input (e : MonitorEvent) : InputData :=
  { magnitude := e.magnitude.getD 5
    depth := e.depth.getD 10
    latitude := e.latitude.getD 0
    longitude := e.longitude.getD 0
    sig := e.sig.getD 1000
    mmi := e.mmi.getD 5
    cdi := e.cdi.getD 5
    nst := e.nst.getD 50
    dmin := e.dmin.getD 1
    gap := e.gap.getD 100 }

/-- The derived feature columns of `predict_tsunami_risk` (lines
134-146); same formulas as `App.engineer_features`, on the prepared
(single-row) data. -/
def engineer_features (d : InputData) : App.Features :=
  { ocean_proximity := calculate_ocean_proximity d.latitude d.longitude
    mag_depth_ratio := App.mag_depth_ratio d.magnitude d.depth
    intensity_score :=
      d.magnitude * (1/2) + d.mmi * (3/10) + d.sig / 100 * (1/5)
    shallow_strong :=
      if d.depth < 70 ∧ d.magnitude > 15/2 then 1 else 0 }

/-- The data-preparation plus feature-derivation prefix of
`predict_tsunami_risk` (lines 104-147).  The surrounding `try` block
returns `None` only when an exception is raised; none of these lines can
raise for a missing or `None`/NaN field (every field access goes through
`.get` with a default), so the step always succeeds. -/
def monitor_feature_step (e : MonitorEvent) : Option (InputData × App.Features) :=
  let input := prepare_input e
  some (input, engineer_features input)

/-- Tier label, color and emblem of the 5-tier classification. -/
structure TierInfo where
  risk_level : String
  risk_color : String
  risk_emoji : String
deriving DecidableEq

/-- The 5-tier classification of `predict_tsunami_risk` (lines 154-173).
The decimal cut points 0.2, 0.4, 0.6, 0.8 are 1/5, 2/5, 3/5, 4/5. -/
def classify_risk (probability : ℚ) : TierInfo :=
  if probability < 1/5 then ⟨"Muy Bajo", "#10b981", "🟢"⟩
  else if probability < 2/5 then ⟨"Bajo", "#84cc16", "🟢"⟩
  else if probability < 3/5 then ⟨"Moderado", "#f59e0b", "🟡"⟩
  else if probability < 4/5 then ⟨"Alto", "#f97316", "🟠"⟩
  else ⟨"Muy Alto", "#ef4444", "🔴"⟩

/-- The five (label, color, emblem) triples that lines 154-173 can
produce, in ascending tier order. -/
def tierTable : List TierInfo :=
  [⟨"Muy Bajo", "#10b981", "🟢"⟩, ⟨"Bajo", "#84cc16", "🟢"⟩,
   ⟨"Moderado", "#f59e0b", "🟡"⟩, ⟨"Alto", "#f97316", "🟠"⟩,
   ⟨"Muy Alto", "#ef4444", "🔴"⟩]

/-- The dictionary returned by `predict_tsunami_risk` (lines 175-180):
a probability together with its tier information. -/
structure RiskResult where
  probability : ℚ
  tier : TierInfo
deriving DecidableEq

/-- One GeoJSON feature of the catalog response, as the fields are read
by `fetch_recent_earthquakes` (lines 57-77): `id`, `properties.time`,
`properties.mag`, `properties.place` by direct indexing (`mag` and
`place` may be `null`), the coordinate triple, and the remaining
properties via `.get` with defaults. -/
structure UsgsFeature where
  id : String
  time : ℤ
  mag : Option ℚ
  place : Option String
  lon : ℚ
  lat : ℚ
  depth : ℚ
  sig : Option ℚ
  mmi : Option ℚ
  cdi : Option ℚ
  nst : Option ℚ
  dmin : Option ℚ
  gap : Option ℚ
  url : Option String
  tsunami : Option ℤ
deriving DecidableEq

/-- Lines 61-77: map one catalog feature to the event dictionary,
substituting the documented defaults for absent optional properties. -/
def parse_feature (f : UsgsFeature) : MonitorEvent :=
  { id := f.id
    time := f.time
    magnitude := f.mag
    place := f.place
    longitude := some f.lon
    latitude := some f.lat
    depth := some f.depth
    sig := some (f.sig.getD 1000)
    mmi := some (f.mmi.getD 5)
    cdi := some (f.cdi.getD 5)
    nst := some (f.nst.getD 50)
    dmin := some (f.dmin.getD 1)
    gap := some (f.gap.getD 100)
    url := (f.url.getD "")
    tsunami := f.tsunami.getD 0 }

/-- `fetch_recent_earthquakes` (lines 33-85).  `minutes` and
`min_magnitude` shape the request exactly as in the Python signature;
the outcome of the upstream HTTP call is made explicit as `resp`:
`Except.error` stands for any raised transport, timeout or parse
exception, which the `except` clause turns into the empty list; on
success each feature of the response is mapped to an event. -/
def fetch_recent_earthquakes (minutes min_magnitude : ℚ)
    (resp : Except String (List UsgsFeature)) : List MonitorEvent :=
  match resp with
  | Except.error _ => []
  | Except.ok feats => feats.map parse_feature

/-- The "Total Terremotos" metric (line 255). -/
def total_count (eqs : List MonitorEvent) : ℕ :=
  eqs.length

/-- Python's `max` over a generator of possibly-`None` magnitudes:
`none` for the empty list (where `max` would raise) and whenever a
`None` magnitude poisons the comparison. -/
def optionMax : List (Option ℚ) → Option ℚ
  | [] => none
  | [q] => q
  | q :: qs => do
      let a ← q
      let b ← optionMax qs
      some (max a b)

/-- The "Magnitud Máxima" metric (lines 258-262): the string "N/A" when
no events were fetched, otherwise the maximum magnitude (its numeric
rendering abstracted by `toString`); `Option.none` models the error path
of a `None` magnitude reaching `max`. -/
def max_magnitude_display (eqs : List MonitorEvent) : Option String :=
  if eqs.isEmpty then some "N/A"
  else (optionMax (eqs.map MonitorEvent.magnitude)).map fun q => toString q

/-- The "Alertas de Tsunami" metric (lines 264-271): a first scoring
pass over the fetched events, counting those that score successfully
with probability at or above the alert threshold.  `predict` abstracts
`predict_tsunami_risk` (the classifier artifact is opaque); a `none`
result models the `return None` paths. -/
def alerts_count (predict : MonitorEvent → Option RiskResult)
    (alert_threshold : ℚ) (eqs : List MonitorEvent) : ℕ :=
  eqs.foldl
    (fun n e =>
      match predict e with
      | some risk => if risk.probability ≥ alert_threshold then n + 1 else n
      | none => n)
    0

/-- Lines 285-290: the second scoring pass pairs each event with its
risk, keeping only successfully scored events in arrival order. -/
def earthquakes_with_risk_unsorted (predict : MonitorEvent → Option RiskResult)
    (eqs : List MonitorEvent) : List (MonitorEvent × RiskResult) :=
  eqs.filterMap fun e => (predict e).map fun r => (e, r)

/-- The comparison realised by `sort(key=lambda x: probability,
reverse=True)` on line 293: descending probability. -/
def probDesc (a b : MonitorEvent × RiskResult) : Bool :=
  decide (b.2.probability ≤ a.2.probability)

/-- Line 293: Python's `list.sort` is a stable sort, and `reverse=True`
orders by the key descending while ties keep their input order; modelled
by the stable `List.mergeSort` with the descending comparison. -/
def earthquakes_with_risk (predict : MonitorEvent → Option RiskResult)
    (eqs : List MonitorEvent) : List (MonitorEvent × RiskResult) :=
  (earthquakes_with_risk_unsorted predict eqs).mergeSort probDesc

/-- Line 299: the active-alert subset of the sorted assessments. -/
def high_risk (predict : MonitorEvent → Option RiskResult)
    (alert_threshold : ℚ) (eqs : List MonitorEvent) :
    List (MonitorEvent × RiskResult) :=
  (earthquakes_with_risk predict eqs).filter
    fun x => decide (x.2.probability ≥ alert_threshold)

end Monitor

/-- Helper: the bitwise-operator classifier of `app.py` agrees with the
spec's three-basin membership test. -/
theorem ocean_app_eq_spec (lat lon : ℚ) :
    App.calculate_ocean_proximity lat lon =
      if SpecRiskZone lat lon then 1 else 0 := by
  unfold App.calculate_ocean_proximity SpecRiskZone
  refine if_congr ?_ rfl rfl
  simp only [Bool.and_eq_true, Bool.or_eq_true, decide_eq_true_eq, gt_iff_lt,
    and_assoc, or_assoc]

/-- Helper: the boolean-operator classifier of the monitoring page
agrees with the spec's three-basin membership test. -/
theorem ocean_monitor_eq_spec (lat lon : ℚ) :
    Monitor.calculate_ocean_proximity lat lon =
      if SpecRiskZone lat lon then 1 else 0 := by
  unfold Monitor.calculate_ocean_proximity SpecRiskZone
  refine if_congr ?_ rfl rfl
  simp only [gt_iff_lt, and_assoc]

/-- Claim C1: over the whole coordinate domain the ocean-proximity
classifier returns 1 exactly on the union of the three open risk boxes
(Pacific Ring, Indian Ocean, Caribbean) and 0 otherwise; it is total
with no error path (its value is always 0 or 1), and it maps
(35, 140) to 1 and (0, 0) to 0. -/
theorem c1_ocean_proximity (lat lon : ℚ)
    (h1 : -90 ≤ lat) (h2 : lat ≤ 90) (h3 : -180 ≤ lon) (h4 : lon ≤ 180) :
    (App.calculate_ocean_proximity lat lon = 1 ↔ SpecRiskZone lat lon) ∧
    (¬ SpecRiskZone lat lon → App.calculate_ocean_proximity lat lon = 0) ∧
    (App.calculate_ocean_proximity lat lon = 0 ∨
      App.calculate_ocean_proximity lat lon = 1) ∧
    App.calculate_ocean_proximity 35 140 = 1 ∧
    App.calculate_ocean_proximity 0 0 = 0 := by
  rw [ocean_app_eq_spec, ocean_app_eq_spec, ocean_app_eq_spec]
  refine ⟨?_, ?_, ?_, ?_, ?_⟩
  · split_ifs with h <;> simp [h]
  · intro h
    simp [h]
  · split_ifs <;> simp
  · rw [if_pos (by norm_num [SpecRiskZone])]
  · rw [if_neg (by norm_num [SpecRiskZone])]

/-- Witness for C1 at the Pacific-Ring point (35, 140). -/
theorem c1_ocean_proximity_witness :
    (-90 ≤ (35:ℚ)) ∧ ((35:ℚ) ≤ 90) ∧ (-180 ≤ (140:ℚ)) ∧ ((140:ℚ) ≤ 180) ∧
    ((App.calculate_ocean_proximity 35 140 = 1 ↔ SpecRiskZone 35 140) ∧
     (¬ SpecRiskZone 35 140 → App.calculate_ocean_proximity 35 140 = 0) ∧
     (App.calculate_ocean_proximity 35 140 = 0 ∨
       App.calculate_ocean_proximity 35 140 = 1) ∧
     App.calculate_ocean_proximity 35 140 = 1 ∧
     App.calculate_ocean_proximity 0 0 = 0) :=
  ⟨by norm_num, by norm_num, by norm_num, by norm_num,
   c1_ocean_proximity 35 140 (by norm_num) (by norm_num) (by norm_num)
     (by norm_num)⟩

/-- Claim C9: the two separately implemented ocean-proximity functions —
bitwise `&`/`|` in `app.py`, boolean `and`/`or` on the monitoring page —
compute the same function on every scalar coordinate pair. -/
theorem c9_ocean_proximity_equivalent (lat lon : ℚ) :
    App.calculate_ocean_proximity lat lon =
      Monitor.calculate_ocean_proximity lat lon := by
  rw [ocean_app_eq_spec, ocean_monitor_eq_spec]

/-- Claim C2: the derived feature `shallow_strong` equals 1 iff
depth < 70 and magnitude > 7.5, equals 0 otherwise, and in particular
equals 0 at the boundary values depth = 70 and magnitude = 7.5. -/
theorem c2_shallow_strong (e : App.EarthquakeData) :
    ((App.engineer_features e).shallow_strong = 1 ↔
      (e.depth < 70 ∧ e.magnitude > 15/2)) ∧
    ((App.engineer_features e).shallow_strong = 0 ↔
      ¬ (e.depth < 70 ∧ e.magnitude > 15/2)) ∧
    (App.engineer_features { e with depth := 70 }).shallow_strong = 0 ∧
    (App.engineer_features { e with magnitude := 15/2 }).shallow_strong = 0 := by
  unfold App.engineer_features
  refine ⟨?_, ?_, ?_, ?_⟩
  · split_ifs with h <;> simp [h]
  · split_ifs with h <;> simp [h]
  · simp
  · simp

/-- Claim C3: the 5-tier mapper of the monitoring feed partitions [0,1]
into five contiguous, non-overlapping, exhaustive intervals with
strict-upper-bound semantics (a probability exactly at a boundary
resolves to the higher tier), and every probability is assigned exactly
one of the five fixed (label, color, emblem) triples. -/
theorem c3_five_tier (p : ℚ) (h0 : 0 ≤ p) (h1 : p ≤ 1) :
    ((Monitor.classify_risk p).risk_level = "Muy Bajo" ↔ p < 1/5) ∧
    ((Monitor.classify_risk p).risk_level = "Bajo" ↔ 1/5 ≤ p ∧ p < 2/5) ∧
    ((Monitor.classify_risk p).risk_level = "Moderado" ↔ 2/5 ≤ p ∧ p < 3/5) ∧
    ((Monitor.classify_risk p).risk_level = "Alto" ↔ 3/5 ≤ p ∧ p < 4/5) ∧
    ((Monitor.classify_risk p).risk_level = "Muy Alto" ↔ 4/5 ≤ p) ∧
    Monitor.classify_risk p ∈ Monitor.tierTable := by
  unfold Monitor.classify_risk Monitor.tierTable
  split_ifs with hA hB hC hD <;>
    refine ⟨?_, ?_, ?_, ?_, ?_, ?_⟩ <;> simp_all <;> intros <;> linarith

/-- Witness for C3 at the boundary probability 1/5, which resolves to
the higher tier "Bajo". -/
theorem c3_five_tier_witness :
    (0 ≤ (1/5 : ℚ)) ∧ ((1/5 : ℚ) ≤ 1) ∧
    (((Monitor.classify_risk (1/5)).risk_level = "Muy Bajo" ↔ (1/5 : ℚ) < 1/5) ∧
     ((Monitor.classify_risk (1/5)).risk_level = "Bajo" ↔
        (1/5 : ℚ) ≤ 1/5 ∧ (1/5 : ℚ) < 2/5) ∧
     ((Monitor.classify_risk (1/5)).risk_level = "Moderado" ↔
        (2/5 : ℚ) ≤ 1/5 ∧ (1/5 : ℚ) < 3/5) ∧
     ((Monitor.classify_risk (1/5)).risk_level = "Alto" ↔
        (3/5 : ℚ) ≤ 1/5 ∧ (1/5 : ℚ) < 4/5) ∧
     ((Monitor.classify_risk (1/5)).risk_level = "Muy Alto" ↔ (4/5 : ℚ) ≤ 1/5) ∧
     Monitor.classify_risk (1/5) ∈ Monitor.tierTable) :=
  ⟨by norm_num, by norm_num, c3_five_tier (1/5) (by norm_num) (by norm_num)⟩

/-- Helper: membership in a conditionally present singleton list. -/
theorem mem_ite_singleton {α : Type} {c : Prop} [Decidable c] {s x : α} :
    (s ∈ if c then [x] else []) ↔ s = x ∧ c := by
  split_ifs with h <;> simp [h]

/-- Claim C4: the 3-tier mapper of the single-shot prediction returns
High iff probability ≥ 0.7, Moderate iff 0.3 ≤ probability < 0.7, Low
otherwise, each label with its fixed color token; and the risk-factor
list contains exactly the descriptions of the rules that trigger
(magnitude ≥ 7.5, depth < 70 km, derived ocean_proximity = 1,
mmi ≥ 6). -/
theorem c4_three_tier_and_factors (p : ℚ) (e : App.EarthquakeData) :
    ((App.risk_level3 p).1 = "🔴 Alto" ↔ 7/10 ≤ p) ∧
    ((App.risk_level3 p).1 = "🟡 Moderado" ↔ 3/10 ≤ p ∧ p < 7/10) ∧
    ((App.risk_level3 p).1 = "🟢 Bajo" ↔ p < 3/10) ∧
    App.risk_level3 p ∈
      [("🔴 Alto", "#dc3545"), ("🟡 Moderado", "#ffc107"),
       ("🟢 Bajo", "#28a745")] ∧
    (∀ s : String, s ∈ App.risk_factors e ↔
      ((s = App.magnitudeFactor ∧ e.magnitude ≥ 15/2) ∨
       (s = App.depthFactor ∧ e.depth < 70) ∨
       (s = App.oceanFactor ∧ (App.engineer_features e).ocean_proximity = 1) ∨
       (s = App.mmiFactor ∧ e.mmi.getD 0 ≥ 6))) := by
  refine ⟨?_, ?_, ?_, ?_, ?_⟩
  · unfold App.risk_level3
    split_ifs <;> simp_all <;> intros <;> linarith
  · unfold App.risk_level3
    split_ifs <;> simp_all <;> intros <;> linarith
  · unfold App.risk_level3
    split_ifs <;> simp_all <;> intros <;> linarith
  · unfold App.risk_level3
    split_ifs <;> simp_all
  · intro s
    unfold App.risk_factors
    simp only [List.mem_append, mem_ite_singleton, or_assoc]

/-- A catalog event whose mandatory fields (magnitude, depth and both
coordinates) are all missing or not a number. -/
def missingEvent : Monitor.MonitorEvent :=
  { id := "us0000test"
    time := 0
    magnitude := none
    place := none
    longitude := none
    latitude := none
    depth := none
    sig := some 1000
    mmi := some 5
    cdi := some 5
    nst := some 50
    dmin := some 1
    gap := some 100
    url := ""
    tsunami := 0 }

/-- Counterexample to C5: on an event whose mandatory fields are all
missing, the feature-derivation step of `predict_tsunami_risk` does not
reject the event — it substitutes the hard-coded defaults (magnitude
5.0, depth 10.0, latitude 0.0, longitude 0.0) and proceeds to feature
derivation. -/
theorem c5_counterexample :
    missingEvent.magnitude = none ∧
    missingEvent.depth = none ∧
    missingEvent.latitude = none ∧
    missingEvent.longitude = none ∧
    Monitor.monitor_feature_step missingEvent ≠ none ∧
    (Monitor.prepare_input missingEvent).magnitude = 5 ∧
    (Monitor.prepare_input missingEvent).depth = 10 ∧
    (Monitor.prepare_input missingEvent).latitude = 0 ∧
    (Monitor.prepare_input missingEvent).longitude = 0 := by
  refine ⟨rfl, rfl, rfl, rfl, ?_, rfl, rfl, rfl, rfl⟩
  simp [Monitor.monitor_feature_step]

/-- Claim C5 (amended): for every raw event in which a mandatory field
(magnitude, depth, or a coordinate) is missing or not a number, the
feature-derivation step does not reject the event; it silently
substitutes the documented default for each missing mandatory field
(magnitude 5.0, depth 10.0, latitude 0.0, longitude 0.0) and proceeds
to feature derivation. -/
theorem c5_default_substitution (e : Monitor.MonitorEvent)
    (h : e.magnitude = none ∨ e.depth = none ∨ e.latitude = none ∨
      e.longitude = none) :
    (Monitor.monitor_feature_step e).isSome = true ∧
    (e.magnitude = none → (Monitor.prepare_input e).magnitude = 5) ∧
    (e.depth = none → (Monitor.prepare_input e).depth = 10) ∧
    (e.latitude = none → (Monitor.prepare_input e).latitude = 0) ∧
    (e.longitude = none → (Monitor.prepare_input e).longitude = 0) := by
  refine ⟨rfl, ?_, ?_, ?_, ?_⟩ <;> intro hn <;>
    simp [Monitor.prepare_input, hn]

/-- Witness for the amended C5 at a concrete event missing all four
mandatory fields. -/
theorem c5_default_substitution_witness :
    (missingEvent.magnitude = none ∨ missingEvent.depth = none ∨
      missingEvent.latitude = none ∨ missingEvent.longitude = none) ∧
    ((Monitor.monitor_feature_step missingEvent).isSome = true ∧
     (missingEvent.magnitude = none →
       (Monitor.prepare_input missingEvent).magnitude = 5) ∧
     (missingEvent.depth = none →
       (Monitor.prepare_input missingEvent).depth = 10) ∧
     (missingEvent.latitude = none →
       (Monitor.prepare_input missingEvent).latitude = 0) ∧
     (missingEvent.longitude = none →
       (Monitor.prepare_input missingEvent).longitude = 0)) :=
  ⟨Or.inl rfl, c5_default_substitution missingEvent (Or.inl rfl)⟩

/-- Claim C6: whenever the upstream catalog request fails (transport
error, timeout or parse failure), the event fetch returns the empty
sequence — it does not raise to the caller — and the empty sequence
yields a total count of zero, zero tsunami alerts, and the "N/A"
maximum-magnitude display in the batch summary. -/
theorem c6_fetch_failure_empty (minutes min_magnitude : ℚ) (err : String)
    (predict : Monitor.MonitorEvent → Option Monitor.RiskResult)
    (alert_threshold : ℚ) :
    Monitor.fetch_recent_earthquakes minutes min_magnitude
      (Except.error err) = [] ∧
    Monitor.total_count (Monitor.fetch_recent_earthquakes minutes
      min_magnitude (Except.error err)) = 0 ∧
    Monitor.alerts_count predict alert_threshold
      (Monitor.fetch_recent_earthquakes minutes min_magnitude
        (Except.error err)) = 0 ∧
    Monitor.max_magnitude_display (Monitor.fetch_recent_earthquakes minutes
      min_magnitude (Except.error err)) = some "N/A" :=
  ⟨rfl, rfl, rfl, rfl⟩

/-- Counterexample to C8: the ratio is not monotonically decreasing in
depth for every fixed magnitude — at the explicit input magnitude −1
the ratio strictly increases from depth 0 to depth 1. -/
theorem c8_counterexample :
    (0:ℚ) ≤ 1 ∧
    App.mag_depth_ratio (-1) 0 < App.mag_depth_ratio (-1) 1 := by
  constructor
  · norm_num
  · norm_num [App.mag_depth_ratio]

/-- Claim C8 (amended): for every event with depth ≥ 0 the derived
`mag_depth_ratio` equals magnitude / (depth + 1) and the divisor
depth + 1 is ≥ 1 (the division is always defined); and for any fixed
nonnegative magnitude the ratio is monotonically decreasing in depth. -/
theorem c8_mag_depth_ratio (e : App.EarthquakeData) (m d1 d2 : ℚ)
    (hd : 0 ≤ e.depth) (hm : 0 ≤ m) (hd1 : 0 ≤ d1) (h12 : d1 ≤ d2) :
    (App.engineer_features e).mag_depth_ratio = e.magnitude / (e.depth + 1) ∧
    1 ≤ e.depth + 1 ∧
    App.mag_depth_ratio m d2 ≤ App.mag_depth_ratio m d1 := by
  refine ⟨rfl, by linarith, ?_⟩
  unfold App.mag_depth_ratio
  have h1 : (0:ℚ) < d1 + 1 := by linarith
  have h2 : (0:ℚ) < d2 + 1 := by linarith
  rw [div_le_div_iff₀ h2 h1]
  nlinarith

/-- The 2011 Japan example event of the interactive form. -/
def sampleEvent : App.EarthquakeData :=
  { magnitude := 91/10
    depth := 29
    latitude := 38322/1000
    longitude := 142369/1000
    cdi := 5
    mmi := some 7
    sig := some 1000
    nst := 50
    dmin := 1
    gap := 100
    year := 2011
    month := 3
    place := "Japon 2011" }

/-- Witness for the amended C8 at the sample event and magnitude 8,
depths 0 ≤ 1. -/
theorem c8_mag_depth_ratio_witness :
    (0 ≤ sampleEvent.depth) ∧ (0 ≤ (8:ℚ)) ∧ (0 ≤ (0:ℚ)) ∧ ((0:ℚ) ≤ 1) ∧
    ((App.engineer_features sampleEvent).mag_depth_ratio =
        sampleEvent.magnitude / (sampleEvent.depth + 1) ∧
      1 ≤ sampleEvent.depth + 1 ∧
      App.mag_depth_ratio 8 1 ≤ App.mag_depth_ratio 8 0) :=
  ⟨by norm_num [sampleEvent], by norm_num, by norm_num, by norm_num,
   c8_mag_depth_ratio sampleEvent 8 0 1 (by norm_num [sampleEvent])
     (by norm_num) (by norm_num) (by norm_num)⟩

/-- Helper: the descending-probability comparison is transitive. -/
theorem probDesc_trans (a b c : Monitor.MonitorEvent × Monitor.RiskResult) :
    Monitor.probDesc a b → Monitor.probDesc b c → Monitor.probDesc a c := by
  unfold Monitor.probDesc
  simp only [decide_eq_true_eq]
  intro h1 h2
  exact le_trans h2 h1

/-- Helper: the descending-probability comparison is total. -/
theorem probDesc_total (a b : Monitor.MonitorEvent × Monitor.RiskResult) :
    Monitor.probDesc a b || Monitor.probDesc b a := by
  unfold Monitor.probDesc
  simp only [Bool.or_eq_true, decide_eq_true_eq]
  exact le_total _ _

/-- Claim C7: the assessed batch produced by the monitoring page is
sorted by predicted probability in descending order, and the sort is
stable — for every probability value, the events carrying it appear in
the output in the same relative order as in the (arrival-ordered)
input. -/
theorem c7_sorted_descending_stable
    (predict : Monitor.MonitorEvent → Option Monitor.RiskResult)
    (eqs : List Monitor.MonitorEvent) :
    (Monitor.earthquakes_with_risk predict eqs).Pairwise
      (fun a b => b.2.probability ≤ a.2.probability) ∧
    ∀ q : ℚ,
      (Monitor.earthquakes_with_risk predict eqs).filter
          (fun x => decide (x.2.probability = q)) =
        (Monitor.earthquakes_with_risk_unsorted predict eqs).filter
          (fun x => decide (x.2.probability = q)) := by
  constructor
  · have h := List.sorted_mergeSort probDesc_trans probDesc_total
      (Monitor.earthquakes_with_risk_unsorted predict eqs)
    refine List.Pairwise.imp ?_ h
    intro a b hab
    have := of_decide_eq_true hab
    exact this
  · intro q
    have hcp : ∀ a ∈ (Monitor.earthquakes_with_risk_unsorted predict
        eqs).filter (fun x => decide (x.2.probability = q)),
        (fun x => decide (x.2.probability = q)) a = true :=
      fun a ha => (List.mem_filter.mp ha).2
    have hc_pairwise : ((Monitor.earthquakes_with_risk_unsorted predict
        eqs).filter (fun x => decide (x.2.probability = q))).Pairwise
        (fun a b => Monitor.probDesc a b = true) := by
      apply List.pairwise_of_forall_mem_list
      intro a ha b hb
      have ha' := hcp a ha
      have hb' := hcp b hb
      simp only [decide_eq_true_eq] at ha' hb'
      simp [Monitor.probDesc, ha', hb']
    have hsub : List.Sublist
        ((Monitor.earthquakes_with_risk_unsorted predict eqs).filter
          (fun x => decide (x.2.probability = q)))
        (Monitor.earthquakes_with_risk predict eqs) :=
      List.sublist_mergeSort probDesc_trans probDesc_total hc_pairwise
        (List.filter_sublist _)
    have hself : ((Monitor.earthquakes_with_risk_unsorted predict
        eqs).filter (fun x => decide (x.2.probability = q))).filter
        (fun x => decide (x.2.probability = q)) =
        (Monitor.earthquakes_with_risk_unsorted predict eqs).filter
          (fun x => decide (x.2.probability = q)) :=
      List.filter_eq_self.mpr hcp
    have hsub2 := hsub.filter (fun x => decide (x.2.probability = q))
    rw [hself] at hsub2
    have hperm : List.Perm
        ((Monitor.earthquakes_with_risk predict eqs).filter
          (fun x => decide (x.2.probability = q)))
        ((Monitor.earthquakes_with_risk_unsorted predict eqs).filter
          (fun x => decide (x.2.probability = q))) :=
      (List.mergeSort_perm _ Monitor.probDesc).filter _
    exact (hsub2.eq_of_length hperm.length_eq.symm).symm

/-- Helper: the alert-count fold equals its initial value plus the
number of successfully scored events at or above the threshold. -/
theorem alerts_foldl (predict : Monitor.MonitorEvent → Option Monitor.RiskResult)
    (thr : ℚ) (eqs : List Monitor.MonitorEvent) :
    ∀ n : ℕ,
      List.foldl
        (fun n e =>
          match predict e with
          | some risk => if risk.probability ≥ thr then n + 1 else n
          | none => n)
        n eqs =
      n + ((Monitor.earthquakes_with_risk_unsorted predict eqs).filter
        (fun x => decide (x.2.probability ≥ thr))).length := by
  induction eqs with
  | nil => intro n; simp [Monitor.earthquakes_with_risk_unsorted]
  | cons e tl ih =>
    intro n
    cases hpe : predict e with
    | none =>
      simp only [List.foldl_cons, hpe, Monitor.earthquakes_with_risk_unsorted,
        List.filterMap_cons]
      exact ih n
    | some r =>
      have hcons : Monitor.earthquakes_with_risk_unsorted predict (e :: tl) =
          (e, r) :: Monitor.earthquakes_with_risk_unsorted predict tl := by
        simp [Monitor.earthquakes_with_risk_unsorted, hpe]
      by_cases hr : r.probability ≥ thr
      · simp only [List.foldl_cons, hpe]
        rw [if_pos hr, hcons, List.filter_cons_of_pos (by simpa using hr),
          List.length_cons, ih (n + 1)]
        omega
      · simp only [List.foldl_cons, hpe]
        rw [if_neg hr, hcons, List.filter_cons_of_neg (by simpa using hr),
          ih n]

/-- Claim C10: the per-event risk prediction is deterministic (it is a
function of the event record alone), so the "Alertas de Tsunami" count
computed by the summary metrics in one scoring pass equals the number of
events in the active-alerts list computed later from an independent
second scoring pass with the same alert threshold. -/
theorem c10_alert_count_consistent
    (predict : Monitor.MonitorEvent → Option Monitor.RiskResult)
    (thr : ℚ) (eqs : List Monitor.MonitorEvent) :
    Monitor.alerts_count predict thr eqs =
      (Monitor.high_risk predict thr eqs).length := by
  have h1 : Monitor.alerts_count predict thr eqs =
      ((Monitor.earthquakes_with_risk_unsorted predict eqs).filter
        (fun x => decide (x.2.probability ≥ thr))).length := by
    have h := alerts_foldl predict thr eqs 0
    simpa [Monitor.alerts_count] using h
  rw [h1]
  unfold Monitor.high_risk Monitor.earthquakes_with_risk
  exact (((List.mergeSort_perm _ Monitor.probDesc).filter _).length_eq).symm
